import Mathlib

/-!
Verification of the polarity-reconciliation core of the liftover
summary-statistics tool (`src/utils/liftover_sumstats.py`).

The Python functions are shallowly embedded as Lean functions:

* `parseVcfLine` / `parse_lifted_vcf` — the per-line parsing of the
  engine's successful output stream (`parse_lifted_vcf`, lines 356-418),
  including the `'.'`-defaulting of the SWAP/FLIP/PRESWAP fields and the
  XOR flip decision.
* `cleanChrom`, `prefChrom`, `chr_sort_key`, `encodePrep`, `encoderKey` —
  the Record Encoder (`sumstats_to_vcf`, lines 58-167): chromosome
  cleaning, optional chr-prefixing, valid-chromosome filtering, numeric
  position conversion, sorting, and identity-key construction.
* `reconcilerKey`, `flipStats`, `updateRow`, `liftSummary`,
  `update_sumstats` — the Reconciler (`update_sumstats`, lines 421-575):
  identity matching, coordinate/allele rewriting, conditional flipping of
  effect/frequency columns, summary counters and output partitioning.

Numeric statistic columns are modelled over `ℚ`; the claims under test
concern exact negation and complementation, not rounding.  Text columns
are modelled as the `astype(str)` rendering pandas would produce.
-/

namespace LiftoverSumstats

/-! ### Python string primitives, modelled at the character level -/

/-- Numeric value of a (non-empty) list of decimal digit characters. -/
def natOfDigits (cs : List Char) : Nat :=
  cs.foldl (fun n c => 10 * n + (c.toNat - 48)) 0

/-- `int(s)` on an all-digit string, `none` otherwise (models `str.isdigit`
followed by `int`). -/
def digitsToNat? (cs : List Char) : Option Nat :=
  if cs.isEmpty then none
  else if cs.all Char.isDigit then some (natOfDigits cs) else none

/-- Digits of `n` in reverse order; `fuel` bounds the recursion. -/
def natToRevDigits : Nat → Nat → List Char
  | 0, _ => []
  | fuel + 1, n => if n = 0 then [] else Nat.digitChar (n % 10) :: natToRevDigits fuel (n / 10)

/-- Decimal rendering of a natural number, as Python `str(int)` does. -/
def natToStr (n : Nat) : String :=
  if n = 0 then "0" else String.mk (natToRevDigits (n + 1) n).reverse

/-- Decimal rendering of an integer, as Python `str(int)` does. -/
def intToStr (i : Int) : String :=
  if i < 0 then "-" ++ natToStr i.natAbs else natToStr i.natAbs

/-- ASCII uppercase, modelling pandas `.str.upper()` on allele strings. -/
def pyUpper (s : String) : String :=
  String.mk (s.data.map Char.toUpper)

/-- Drop leading ASCII whitespace. -/
def dropWs : List Char → List Char
  | [] => []
  | c :: rest =>
    if c = ' ' ∨ c = '\t' ∨ c = '\n' ∨ c = '\r' then dropWs rest else c :: rest

/-- Python `str.strip()`: remove whitespace from both ends. -/
def pyStrip (s : String) : String :=
  String.mk ((dropWs (dropWs s.data).reverse).reverse)

/-- Python `s.replace('chr', '')`: delete every non-overlapping occurrence
of `chr`, scanning left to right. -/
def stripChrAll : List Char → List Char
  | 'c' :: 'h' :: 'r' :: rest => stripChrAll rest
  | c :: rest => c :: stripChrAll rest
  | [] => []

/-- Longest digit run at the head of a character list, plus the remainder. -/
def spanDigits : List Char → List Char × List Char
  | [] => ([], [])
  | c :: rest =>
    if c.isDigit then
      let p := spanDigits rest
      (c :: p.1, p.2)
    else ([], c :: rest)

/-- `pandas.to_numeric(s, errors='coerce')` restricted to plain decimal
numerals (optional sign, digits, optional fractional part); every other
string coerces to NaN, modelled as `none`. -/
def toNumeric? (s : String) : Option Rat :=
  let cs := (pyStrip s).data
  let signed : Bool × List Char :=
    match cs with
    | '-' :: rest => (true, rest)
    | '+' :: rest => (false, rest)
    | _ => (false, cs)
  let whole := spanDigits signed.2
  let mag : Option Rat :=
    match whole.2 with
    | [] => if whole.1.isEmpty then none else some (natOfDigits whole.1 : Rat)
    | '.' :: rest2 =>
      let frac := spanDigits rest2
      if frac.2.isEmpty ∧ ¬(whole.1.isEmpty ∧ frac.1.isEmpty) then
        some ((natOfDigits whole.1 : Rat) +
          (natOfDigits frac.1 : Rat) / ((10 : Rat) ^ frac.1.length))
      else none
    | _ => none
  mag.map (fun v => if signed.1 then -v else v)

/-- Truncation toward zero, modelling pandas `.astype(int)` on floats. -/
def ratTrunc (q : Rat) : Int :=
  q.num.tdiv (q.den : Int)

/-! ### Data model -/

/-- One row of the input summary-statistics table, as `update_sumstats`
reads it back: text fields carry the `astype(str)` rendering of the
stored value, `rsid = none` models a missing RSID value (or an absent
RSID column), and `stats` holds the numeric statistic columns by name. -/
structure SumRow where
  chrom : String
  pos : String
  ea : String
  ref : String
  rsid : Option String
  stats : List (String × Rat)
deriving DecidableEq

/-- One data line of the lifted VCF as returned by the engine query:
`ID CHROM POS REF ALT INFO/SWAP INFO/FLIP INFO/PRESWAP ...` where the
three INFO fields hold the raw text (`.` when the tag is absent). -/
structure VcfLine where
  vid : String
  chrom : String
  pos : Int
  ref : String
  alt : String
  swapF : String
  flipF : String
  preswapF : String
deriving DecidableEq

/-- The per-variant record `parse_lifted_vcf` stores in `lifted_variants`. -/
structure LiftedInfo where
  chr : String
  pos : Int
  ref : String
  alt : String
  swap : Bool
  flip : Bool
  preswap : Bool
  effect_flipped : Bool
deriving DecidableEq

/-- An output row of `update_sumstats`: original fields after coordinate,
allele and statistic updates, plus the added status/provenance columns. -/
structure OutRow where
  chrom : String
  pos : Option Rat
  ea : String
  ref : String
  rsid : Option String
  stats : List (String × Rat)
  status : String
  preswap : Bool
  alleleSwap : Bool
  strandFlip : Bool
deriving DecidableEq

/-- The run-summary counters printed at the end of `update_sumstats`. -/
structure LiftSummary where
  total : Nat
  lifted : Nat
  strand_flipped : Nat
  allele_swapped : Nat
  failed : Nat
deriving DecidableEq

/-! ### `parse_lifted_vcf` (lines 356-418) -/

/-- `parts[i] if parts[i] != '.' else '0'` — the defaulting applied to the
SWAP/FLIP/PRESWAP text fields. -/
def dotDefault (s : String) : String :=
  if s = "." then "0" else s

/-- The record built for one line of the lifted VCF (lines 377-406),
including the XOR flip decision of line 394. -/
def parseVcfLine (l : VcfLine) : LiftedInfo :=
  let swap := dotDefault l.swapF
  let flip := dotDefault l.flipF
  let preswap := dotDefault l.preswapF
  { chr := l.chrom
    pos := l.pos
    ref := l.ref
    alt := l.alt
    swap := swap == "1"
    flip := flip == "1"
    preswap := preswap == "1"
    effect_flipped := (preswap == "1") != (swap == "1") }

/-- The `lifted_variants` dictionary: later lines overwrite earlier ones
with the same ID (`lifted_variants[variant_id] = ...`).  Modelled as an
association list read through `lookupInfo`, most recent entry first. -/
def parse_lifted_vcf (lines : List VcfLine) : List (String × LiftedInfo) :=
  lines.foldl (fun d l => (l.vid, parseVcfLine l) :: d) []

/-- Dictionary lookup: the most recently inserted binding for a key wins. -/
def lookupInfo (k : String) (d : List (String × LiftedInfo)) : Option LiftedInfo :=
  (d.find? (fun p => p.1 == k)).map Prod.snd

/-! ### Record Encoder (`sumstats_to_vcf`, lines 58-167) -/

/-- Chromosome cleaning (lines 60-69): `astype(str).str.strip()`, then a
numeric-looking value is converted via `to_numeric` → `astype(int)` →
`astype(str)` (so `1.0` becomes `1`); non-numeric values are kept as-is. -/
def cleanChrom (s : String) : String :=
  let t := pyStrip s
  match toNumeric? t with
  | some q => intToStr (ratTrunc q)
  | none => t

/-- `simple_chroms` (line 74): the chromosomes that may receive a `chr`
prefix, and also `valid_chroms` of line 84. -/
def simpleChroms : List String :=
  (List.range 22).map (fun i => natToStr (i + 1)) ++ ["X", "Y", "MT", "M"]

/-- The `add_chr_prefix` step (lines 72-76). -/
def prefChrom (addChr : Bool) (c : String) : String :=
  if addChr ∧ c ∈ simpleChroms then "chr" ++ c else c

/-- `all_valid` (lines 84-86): valid chromosomes with or without prefix. -/
def allValidChroms : List String :=
  simpleChroms ++ simpleChroms.map (fun c => "chr" ++ c)

/-- `chr_sort_key` (lines 97-108): strip every `chr` occurrence, digits →
their value, `X` → 23, `Y` → 24, `MT`/`M` → 25, anything else → 99. -/
def chr_sort_key (s : String) : Nat :=
  let c := String.mk (stripChrAll s.data)
  match digitsToNat? c.data with
  | some n => n
  | none =>
    if c = "X" then 23
    else if c = "Y" then 24
    else if c = "MT" ∨ c = "M" then 25
    else 99

/-- A row after the encoder's position conversion: position is an integer. -/
structure EncRow where
  chrom : String
  pos : Int
  ea : String
  ref : String
  rsid : Option String
  stats : List (String × Rat)
deriving DecidableEq

/-- The sort relation of line 111: `sort_values(['_chr_sort', pos_col])` —
chromosome sort key first, position second, both ascending. -/
def encLe (x y : EncRow) : Prop :=
  chr_sort_key x.chrom < chr_sort_key y.chrom ∨
    (chr_sort_key x.chrom = chr_sort_key y.chrom ∧ x.pos ≤ y.pos)

instance : DecidableRel encLe := fun x y => by
  unfold encLe; infer_instance

instance : IsTotal EncRow encLe :=
  ⟨by intro a b; unfold encLe; omega⟩

instance : IsTrans EncRow encLe :=
  ⟨by intro a b c; unfold encLe; omega⟩

/-- The encoder's record pipeline (lines 58-111): clean chromosomes, add
the optional prefix, keep only valid chromosomes, convert positions to
integers dropping non-numeric ones, and sort by (chromosome key, position). -/
def encodePrep (addChr : Bool) (rows : List SumRow) : List EncRow :=
  let cleaned := rows.map (fun r => { r with chrom := prefChrom addChr (cleanChrom r.chrom) })
  let valid := cleaned.filter (fun r => decide (r.chrom ∈ allValidChroms))
  let numeric : List EncRow := valid.filterMap (fun r =>
    (toNumeric? r.pos).map (fun q =>
      { chrom := r.chrom, pos := ratTrunc q, ea := r.ea, ref := r.ref,
        rsid := r.rsid, stats := r.stats }))
  List.insertionSort encLe numeric

/-- The VCF ID written for one emitted record (lines 155-164): the RSID
when present, else `chrom:pos:REF:ALT` with uppercased alleles, using the
cleaned/prefixed chromosome and the integer position. -/
def encRowKey (r : EncRow) : String :=
  match r.rsid with
  | some rs => rs
  | none => r.chrom ++ ":" ++ intToStr r.pos ++ ":" ++ pyUpper r.ref ++ ":" ++ pyUpper r.ea

/-- Identity key the encoder emits for an input row, `none` when the row
is filtered out before emission. -/
def encoderKey (addChr : Bool) (r : SumRow) : Option String :=
  (encodePrep addChr [r]).head?.map encRowKey

/-! ### Reconciler (`update_sumstats`, lines 421-575) -/

/-- `_variant_id` (lines 449-461): the RSID when present, else
`chrom:pos:ref:ea` built from the raw column values (no cleaning, no
prefix, no uppercasing). -/
def reconcilerKey (r : SumRow) : String :=
  match r.rsid with
  | some rs => rs
  | none => r.chrom ++ ":" ++ r.pos ++ ":" ++ r.ref ++ ":" ++ r.ea

/-- One in-place column assignment
(`df.loc[flip_mask, col] = f(df.loc[flip_mask, col])`): apply `f` to the
value of every statistic entry named `col`; an absent name changes
nothing, modelling the `col in df.columns` guard. -/
def applyCol (f : Rat → Rat) (col : String) (stats : List (String × Rat)) :
    List (String × Rat) :=
  stats.map (fun p => if p.1 = col then (p.1, f p.2) else p)

/-- The statistic-column update applied under `flip_mask` (lines 504-514):
loop over the caller-supplied effect-column names, negating the named
column once per occurrence of the name in the list, then loop over the
supplied frequency-column names, complementing once per occurrence. -/
def flipStats (effectCols eafCols : List String) (stats : List (String × Rat)) :
    List (String × Rat) :=
  eafCols.foldl (fun s col => applyCol (fun v => 1 - v) col s)
    (effectCols.foldl (fun s col => applyCol (fun v => -v) col s) stats)

/-- `k`-fold application of a column update to one value. -/
def iterApply (f : Rat → Rat) : Nat → Rat → Rat
  | 0, v => v
  | k + 1, v => iterApply f k (f v)

/-- The per-record reconciliation (lines 463-517): a record matched in the
lifted dictionary takes the engine's chromosome/position/alleles and the
provenance flags, with alleles exchanged and statistics flipped when
`effect_flipped`; an unmatched record keeps its fields, its position read
through `to_numeric` (line 470, then line 529); the status is `lifted`,
then overwritten to `rejected` (line 517) when the ID is in the reject
stream, and stays `unknown` when the ID matched neither stream. -/
def updateRow (d : List (String × LiftedInfo)) (rejected : List String)
    (effectCols eafCols : List String) (r : SumRow) : OutRow :=
  let vid := reconcilerKey r
  match lookupInfo vid d with
  | some info =>
    { chrom := info.chr
      pos := some (info.pos : Rat)
      ea := if info.effect_flipped then info.ref else info.alt
      ref := if info.effect_flipped then info.alt else info.ref
      rsid := r.rsid
      stats := if info.effect_flipped then flipStats effectCols eafCols r.stats else r.stats
      status := if vid ∈ rejected then "rejected" else "lifted"
      preswap := info.preswap
      alleleSwap := info.swap
      strandFlip := info.flip }
  | none =>
    { chrom := r.chrom
      pos := toNumeric? r.pos
      ea := r.ea
      ref := r.ref
      rsid := r.rsid
      stats := r.stats
      status := if vid ∈ rejected then "rejected" else "unknown"
      preswap := false
      alleleSwap := false
      strandFlip := false }

/-- The summary counters (lines 519-535, printed at lines 570-575):
`total` is the row count, `lifted` the size of `lifted_mask`,
`strand_flipped` the rows whose STRAND_FLIP column ended true,
`allele_swapped` the size of `flip_mask` (matched and effect-flipped),
`failed` is `total - lifted`. -/
def liftSummary (d : List (String × LiftedInfo)) (rejected : List String)
    (effectCols eafCols : List String) (rows : List SumRow) : LiftSummary :=
  let out := rows.map (updateRow d rejected effectCols eafCols)
  let matched := rows.countP (fun r => (lookupInfo (reconcilerKey r) d).isSome)
  { total := rows.length
    lifted := matched
    strand_flipped := out.countP (fun o => o.strandFlip)
    allele_swapped := rows.countP (fun r =>
      match lookupInfo (reconcilerKey r) d with
      | some info => info.effect_flipped
      | none => false)
    failed := rows.length - matched }

/-- The whole reconciliation run: update every row, then stream the rows
with status `lifted` to the primary output and all others to the
unmatched output (lines 537-568), returning both with the summary. -/
def update_sumstats (d : List (String × LiftedInfo)) (rejected : List String)
    (effectCols eafCols : List String) (rows : List SumRow) :
    List OutRow × List OutRow × LiftSummary :=
  let out := rows.map (updateRow d rejected effectCols eafCols)
  (out.filter (fun o => o.status == "lifted"),
   out.filter (fun o => !(o.status == "lifted")),
   liftSummary d rejected effectCols eafCols rows)

/-! ### Claim-side definition for the sort-order claim -/

/-- Modelled from the spec's words for the sort-order claim: a chromosome
key that orders numeric chromosomes 1-22 by value, then X as 23, Y as 24,
MT/M as 25, and any other chromosome as 99 (stated on the canonical name,
an optional leading `chr` prefix removed). -/
def claimChrKey (s : String) : Nat :=
  let c : String :=
    match s.data with
    | 'c' :: 'h' :: 'r' :: rest => String.mk rest
    | _ => s
  match digitsToNat? c.data with
  | some n => if 1 ≤ n ∧ n ≤ 22 then n else 99
  | none =>
    if c = "X" then 23
    else if c = "Y" then 24
    else if c = "MT" ∨ c = "M" then 25
    else 99

/-! ### Helper lemmas -/

/-- On every chromosome the encoder's validity filter accepts, the
source's `chr_sort_key` agrees with the claimed key assignment. -/
theorem chr_sort_key_eq_claim_on_valid :
    ∀ c ∈ allValidChroms, chr_sort_key c = claimChrKey c := by decide

/-- Every record the encoder emits carries a chromosome that passed the
validity filter. -/
theorem mem_encodePrep_valid (addChr : Bool) (rows : List SumRow) :
    ∀ x ∈ encodePrep addChr rows, x.chrom ∈ allValidChroms := by
  intro x hx
  unfold encodePrep at hx
  have hx' := (List.perm_insertionSort encLe _).mem_iff.mp hx
  rcases List.mem_filterMap.mp hx' with ⟨r, hr, hmap⟩
  rcases Option.map_eq_some'.mp hmap with ⟨q, _, hq⟩
  have hchrom : x.chrom = r.chrom := by rw [← hq]
  rw [hchrom]
  exact of_decide_eq_true (List.mem_filter.mp hr).2

/-- Splitting a list by a boolean predicate preserves its length. -/
theorem length_filter_split {α : Type} (p : α → Bool) (l : List α) :
    (l.filter p).length + (l.filter (fun a => !(p a))).length = l.length := by
  induction l with
  | nil => rfl
  | cons a l ih =>
    by_cases h : p a = true <;> simp [List.filter, h, ← ih] <;> omega

/-- Looping a column update over a list of names applies it to each entry
once per occurrence of the entry's name in the list. -/
theorem foldl_applyCol (f : Rat → Rat) (cols : List String)
    (stats : List (String × Rat)) :
    cols.foldl (fun s col => applyCol f col s) stats =
      stats.map (fun p => (p.1, iterApply f (cols.count p.1) p.2)) := by
  induction cols generalizing stats with
  | nil => simp [iterApply]
  | cons c cols ih =>
    rw [List.foldl_cons, ih]
    unfold applyCol
    rw [List.map_map]
    apply List.map_congr_left
    intro p _
    by_cases hc : p.1 = c <;>
      simp [Function.comp, hc, List.count_cons, iterApply]

/-- Pointwise characterization of the statistic update: each entry is
negated once per occurrence of its name among the supplied effect
columns, then complemented once per occurrence among the supplied
frequency columns. -/
theorem flipStats_eq_map (ec fc : List String) (stats : List (String × Rat)) :
    flipStats ec fc stats = stats.map (fun p =>
      (p.1, iterApply (fun v => 1 - v) (fc.count p.1)
        (iterApply (fun v => -v) (ec.count p.1) p.2))) := by
  unfold flipStats
  rw [foldl_applyCol, foldl_applyCol, List.map_map]
  apply List.map_congr_left
  intro p _
  simp [Function.comp]

/-! ### Claim theorems -/

/-- C1: for every record in the liftover engine's successful output, the
flip decision is the boolean XOR of `pre_swap` and `allele_swap` (so it
holds on all four flag combinations), and the `strand_flip` field has no
influence on the decision. -/
theorem C1_flip_decision_xor (l : VcfLine) :
    (parseVcfLine l).effect_flipped = xor (parseVcfLine l).preswap (parseVcfLine l).swap ∧
    ∀ f, (parseVcfLine { l with flipF := f }).effect_flipped = (parseVcfLine l).effect_flipped := by
  constructor
  · cases h1 : dotDefault l.preswapF == "1" <;>
      cases h2 : dotDefault l.swapF == "1" <;>
        simp [parseVcfLine, h1, h2]
  · intro f
    rfl

/-- C8: the Record Encoder emits records sorted by the claimed chromosome
key (numeric 1-22 by value, X as 23, Y as 24, MT/M as 25, anything else
as 99) as primary key and by ascending position as secondary key. -/
theorem C8_encoder_emits_sorted (addChr : Bool) (rows : List SumRow) :
    (encodePrep addChr rows).Pairwise (fun x y =>
      claimChrKey x.chrom < claimChrKey y.chrom ∨
        (claimChrKey x.chrom = claimChrKey y.chrom ∧ x.pos ≤ y.pos)) := by
  have hs : (encodePrep addChr rows).Pairwise encLe := by
    unfold encodePrep
    exact List.sorted_insertionSort encLe _
  have hv := mem_encodePrep_valid addChr rows
  refine hs.imp_of_mem ?_
  intro a b ha hb hab
  have ka := chr_sort_key_eq_claim_on_valid a.chrom (hv a ha)
  have kb := chr_sort_key_eq_claim_on_valid b.chrom (hv b hb)
  unfold encLe at hab
  rw [ka, kb] at hab
  exact hab

/-- C4 (code bug): at the concrete input record
`(chrom "1", pos "100", effect allele "a", reference allele "g", no rsid)`
run with the add-chr-prefix option, the Record Encoder emits the identity
key `chr1:100:G:A` (cleaned chromosome with prefix, uppercased alleles)
while the reconciler computes `1:100:g:a` from the raw columns, so the
record can never be matched to its own engine result. -/
theorem C4_identity_key_mismatch :
    encoderKey true
        { chrom := "1", pos := "100", ea := "a", ref := "g", rsid := none, stats := [] } =
      some "chr1:100:G:A" ∧
    reconcilerKey
        { chrom := "1", pos := "100", ea := "a", ref := "g", rsid := none, stats := [] } =
      "1:100:g:a" ∧
    encoderKey true
        { chrom := "1", pos := "100", ea := "a", ref := "g", rsid := none, stats := [] } ≠
      some (reconcilerKey
        { chrom := "1", pos := "100", ea := "a", ref := "g", rsid := none, stats := [] }) := by
  exact ⟨by decide, by decide, by decide⟩

/-- Counterexample to C2: the effect column name `BETA` supplied twice
(the CLI appends repeated `--effect-col` values into one list).  The
matched, effect-flipped record `(chrom 1, pos 100, effect A, ref G,
BETA 2)` has its alleles exchanged, but the two per-occurrence negations
cancel and `BETA` is returned unchanged at 2 — a partial flip: the
allele swap was applied without the effect-size negation. -/
theorem C2_partial_flip_on_duplicate_cx :
    (updateRow
        [("1:100:G:A",
          { chr := "1", pos := 500, ref := "G", alt := "A", swap := false, flip := false,
            preswap := true, effect_flipped := true })] [] ["BETA", "BETA"] []
        { chrom := "1", pos := "100", ea := "A", ref := "G", rsid := none,
          stats := [("BETA", (2 : Rat))] }).ea = "G" ∧
    (updateRow
        [("1:100:G:A",
          { chr := "1", pos := 500, ref := "G", alt := "A", swap := false, flip := false,
            preswap := true, effect_flipped := true })] [] ["BETA", "BETA"] []
        { chrom := "1", pos := "100", ea := "A", ref := "G", rsid := none,
          stats := [("BETA", (2 : Rat))] }).ref = "A" ∧
    (updateRow
        [("1:100:G:A",
          { chr := "1", pos := 500, ref := "G", alt := "A", swap := false, flip := false,
            preswap := true, effect_flipped := true })] [] ["BETA", "BETA"] []
        { chrom := "1", pos := "100", ea := "A", ref := "G", rsid := none,
          stats := [("BETA", (2 : Rat))] }).stats = [("BETA", (2 : Rat))] := by
  exact ⟨by decide, by decide, by decide⟩

/-- C2 as amended: the three flip updates are issued together for a
matched, effect-flipped record — alleles exchanged as values and the
statistics mapped through the per-occurrence column updates — and when
the caller-supplied effect and frequency column lists are duplicate-free
and disjoint (the intended call pattern), the flip is atomic: every
supplied effect column present is negated, every supplied frequency
column present is complemented, every other statistic is unchanged.  A
duplicated supplied name, however, cancels its own update, leaving that
statistic unchanged while the alleles still swap. -/
theorem C2_flip_atomic_amended (d : List (String × LiftedInfo)) (rej ec fc : List String)
    (r : SumRow) (info : LiftedInfo)
    (h : lookupInfo (reconcilerKey r) d = some info)
    (hf : info.effect_flipped = true)
    (hec : ec.Nodup) (hfc : fc.Nodup)
    (hdisj : ∀ n ∈ ec, n ∉ fc) :
    (updateRow d rej ec fc r).ea = info.ref ∧
    (updateRow d rej ec fc r).ref = info.alt ∧
    (updateRow d rej ec fc r).stats = flipStats ec fc r.stats ∧
    ∀ p ∈ r.stats,
      (p.1 ∈ ec → (p.1, -p.2) ∈ (updateRow d rej ec fc r).stats) ∧
      (p.1 ∈ fc → (p.1, 1 - p.2) ∈ (updateRow d rej ec fc r).stats) ∧
      (p.1 ∉ ec → p.1 ∉ fc → p ∈ (updateRow d rej ec fc r).stats) := by
  have hstats : (updateRow d rej ec fc r).stats = flipStats ec fc r.stats := by
    simp [updateRow, h, hf]
  refine ⟨by simp [updateRow, h, hf], by simp [updateRow, h, hf], hstats, ?_⟩
  intro p hp
  rw [hstats, flipStats_eq_map]
  refine ⟨?_, ?_, ?_⟩
  · intro hmem
    have hc1 : ec.count p.1 = 1 := List.count_eq_one_of_mem hec hmem
    have hc0 : fc.count p.1 = 0 := List.count_eq_zero.mpr (hdisj p.1 hmem)
    refine List.mem_map.mpr ⟨p, hp, ?_⟩
    rw [hc1, hc0]
    rfl
  · intro hmem
    have hc0 : ec.count p.1 = 0 := List.count_eq_zero.mpr (fun hin => hdisj p.1 hin hmem)
    have hc1 : fc.count p.1 = 1 := List.count_eq_one_of_mem hfc hmem
    refine List.mem_map.mpr ⟨p, hp, ?_⟩
    rw [hc0, hc1]
    rfl
  · intro h1 h2
    have hc0 : ec.count p.1 = 0 := List.count_eq_zero.mpr h1
    have hc0' : fc.count p.1 = 0 := List.count_eq_zero.mpr h2
    refine List.mem_map.mpr ⟨p, hp, ?_⟩
    rw [hc0, hc0']
    rfl

/-- Witness for the amended C2: duplicate-free supplied lists on a
matched, effect-flipped record with BETA 2 and EAF 1 give exchanged
alleles, BETA negated to -2 and EAF complemented to 1 - 1. -/
theorem C2_flip_atomic_amended_witness :
    (["BETA"] : List String).Nodup ∧ (["EAF"] : List String).Nodup ∧
    (updateRow
        [("1:100:G:A",
          { chr := "1", pos := 500, ref := "G", alt := "A", swap := false, flip := false,
            preswap := true, effect_flipped := true })] [] ["BETA"] ["EAF"]
        { chrom := "1", pos := "100", ea := "A", ref := "G", rsid := none,
          stats := [("BETA", (2 : Rat)), ("EAF", (1 : Rat))] }).ea = "G" ∧
    ("BETA", -(2 : Rat)) ∈
      (updateRow
        [("1:100:G:A",
          { chr := "1", pos := 500, ref := "G", alt := "A", swap := false, flip := false,
            preswap := true, effect_flipped := true })] [] ["BETA"] ["EAF"]
        { chrom := "1", pos := "100", ea := "A", ref := "G", rsid := none,
          stats := [("BETA", (2 : Rat)), ("EAF", (1 : Rat))] }).stats ∧
    ("EAF", 1 - (1 : Rat)) ∈
      (updateRow
        [("1:100:G:A",
          { chr := "1", pos := 500, ref := "G", alt := "A", swap := false, flip := false,
            preswap := true, effect_flipped := true })] [] ["BETA"] ["EAF"]
        { chrom := "1", pos := "100", ea := "A", ref := "G", rsid := none,
          stats := [("BETA", (2 : Rat)), ("EAF", (1 : Rat))] }).stats := by
  have h := C2_flip_atomic_amended
    [("1:100:G:A",
      { chr := "1", pos := 500, ref := "G", alt := "A", swap := false, flip := false,
        preswap := true, effect_flipped := true })] [] ["BETA"] ["EAF"]
    { chrom := "1", pos := "100", ea := "A", ref := "G", rsid := none,
      stats := [("BETA", (2 : Rat)), ("EAF", (1 : Rat))] }
    { chr := "1", pos := 500, ref := "G", alt := "A", swap := false, flip := false,
      preswap := true, effect_flipped := true }
    (by decide) (by decide) (by decide) (by decide) (by decide)
  refine ⟨by decide, by decide, h.1, ?_, ?_⟩
  · exact (h.2.2.2 ("BETA", (2 : Rat)) (by simp)).1 (by simp)
  · exact ((h.2.2.2 ("EAF", (1 : Rat)) (by simp)).2.1) (by simp)

/-- C6: a record matched in the lifted stream with `effect_flipped` false
still has its chromosome, position and both allele fields rewritten to
the engine's target-build values, while every statistic column is
returned bit-identical to its input value. -/
theorem C6_nonflip_frame (d : List (String × LiftedInfo)) (rej ec fc : List String)
    (r : SumRow) (info : LiftedInfo)
    (h : lookupInfo (reconcilerKey r) d = some info)
    (hf : info.effect_flipped = false) :
    (updateRow d rej ec fc r).chrom = info.chr ∧
    (updateRow d rej ec fc r).pos = some (info.pos : Rat) ∧
    (updateRow d rej ec fc r).ea = info.alt ∧
    (updateRow d rej ec fc r).ref = info.ref ∧
    (updateRow d rej ec fc r).stats = r.stats := by
  refine ⟨?_, ?_, ?_, ?_, ?_⟩ <;> simp [updateRow, h, hf]

/-- Witness for C6: a concrete matched, non-flipped record keeps its beta
and frequency untouched while moving to the lifted coordinates. -/
theorem C6_nonflip_frame_witness :
    lookupInfo
        (reconcilerKey
          { chrom := "3", pos := "77", ea := "T", ref := "C", rsid := some "rs42",
            stats := [("BETA", (2 : Rat) / 5), ("EAF", (1 : Rat) / 4)] })
        [("rs42",
          { chr := "3", pos := 99, ref := "C", alt := "T", swap := true, flip := true,
            preswap := true, effect_flipped := false })] =
      some
        { chr := "3", pos := 99, ref := "C", alt := "T", swap := true, flip := true,
          preswap := true, effect_flipped := false } ∧
    (updateRow
        [("rs42",
          { chr := "3", pos := 99, ref := "C", alt := "T", swap := true, flip := true,
            preswap := true, effect_flipped := false })] [] ["BETA"] ["EAF"]
        { chrom := "3", pos := "77", ea := "T", ref := "C", rsid := some "rs42",
          stats := [("BETA", (2 : Rat) / 5), ("EAF", (1 : Rat) / 4)] }).pos =
      some (99 : Rat) ∧
    (updateRow
        [("rs42",
          { chr := "3", pos := 99, ref := "C", alt := "T", swap := true, flip := true,
            preswap := true, effect_flipped := false })] [] ["BETA"] ["EAF"]
        { chrom := "3", pos := "77", ea := "T", ref := "C", rsid := some "rs42",
          stats := [("BETA", (2 : Rat) / 5), ("EAF", (1 : Rat) / 4)] }).stats =
      [("BETA", (2 : Rat) / 5), ("EAF", (1 : Rat) / 4)] := by
  have h := C6_nonflip_frame
    [("rs42",
      { chr := "3", pos := 99, ref := "C", alt := "T", swap := true, flip := true,
        preswap := true, effect_flipped := false })] [] ["BETA"] ["EAF"]
    { chrom := "3", pos := "77", ea := "T", ref := "C", rsid := some "rs42",
      stats := [("BETA", (2 : Rat) / 5), ("EAF", (1 : Rat) / 4)] }
    { chr := "3", pos := 99, ref := "C", alt := "T", swap := true, flip := true,
      preswap := true, effect_flipped := false }
    (by decide) (by decide)
  exact ⟨by decide, h.2.1, h.2.2.2.2⟩

/-- C3: every input record is written to exactly one of the two outputs —
the lifted output holds the records with status `lifted`, the unmatched
output all others — so the partition is total and disjoint and the two
output lengths sum to the input length. -/
theorem C3_partition_total_disjoint (d : List (String × LiftedInfo))
    (rej ec fc : List String) (rows : List SumRow) (o : OutRow)
    (ho : o ∈ rows.map (updateRow d rej ec fc)) :
    (update_sumstats d rej ec fc rows).1.length +
      (update_sumstats d rej ec fc rows).2.1.length = rows.length ∧
    (o ∈ (update_sumstats d rej ec fc rows).1 ∨
      o ∈ (update_sumstats d rej ec fc rows).2.1) ∧
    ¬(o ∈ (update_sumstats d rej ec fc rows).1 ∧
      o ∈ (update_sumstats d rej ec fc rows).2.1) := by
  simp only [update_sumstats]
  refine ⟨?_, ?_, ?_⟩
  · have h := length_filter_split (fun o : OutRow => o.status == "lifted")
      (rows.map (updateRow d rej ec fc))
    simpa using h
  · by_cases h : o.status == "lifted"
    · exact Or.inl (List.mem_filter.mpr ⟨ho, h⟩)
    · exact Or.inr (List.mem_filter.mpr ⟨ho, by simpa using h⟩)
  · rintro ⟨h1, h2⟩
    have p1 := (List.mem_filter.mp h1).2
    have p2 := (List.mem_filter.mp h2).2
    rw [p1] at p2
    simp at p2

/-- Witness for C3: a two-row run (one matched, one unknown) in which the
matched record's output row lies in the lifted output, not the unmatched
one, and the two output lengths sum to 2. -/
theorem C3_partition_total_disjoint_witness :
    updateRow
        [("4:10:A:G",
          { chr := "4", pos := 11, ref := "A", alt := "G", swap := false, flip := false,
            preswap := false, effect_flipped := false })] [] [] []
        { chrom := "4", pos := "10", ea := "G", ref := "A", rsid := none, stats := [] } ∈
      [{ chrom := "4", pos := "10", ea := "G", ref := "A", rsid := none, stats := [] },
        { chrom := "5", pos := "20", ea := "T", ref := "C", rsid := none, stats := [] }].map
        (updateRow
          [("4:10:A:G",
            { chr := "4", pos := 11, ref := "A", alt := "G", swap := false, flip := false,
              preswap := false, effect_flipped := false })] [] [] []) ∧
    (update_sumstats
        [("4:10:A:G",
          { chr := "4", pos := 11, ref := "A", alt := "G", swap := false, flip := false,
            preswap := false, effect_flipped := false })] [] [] []
        [{ chrom := "4", pos := "10", ea := "G", ref := "A", rsid := none, stats := [] },
          { chrom := "5", pos := "20", ea := "T", ref := "C", rsid := none, stats := [] }]).1.length +
      (update_sumstats
        [("4:10:A:G",
          { chr := "4", pos := 11, ref := "A", alt := "G", swap := false, flip := false,
            preswap := false, effect_flipped := false })] [] [] []
        [{ chrom := "4", pos := "10", ea := "G", ref := "A", rsid := none, stats := [] },
          { chrom := "5", pos := "20", ea := "T", ref := "C", rsid := none, stats := [] }]).2.1.length = 2 := by
  refine ⟨by decide, ?_⟩
  exact (C3_partition_total_disjoint
    [("4:10:A:G",
      { chr := "4", pos := 11, ref := "A", alt := "G", swap := false, flip := false,
        preswap := false, effect_flipped := false })] [] [] []
    [{ chrom := "4", pos := "10", ea := "G", ref := "A", rsid := none, stats := [] },
      { chrom := "5", pos := "20", ea := "T", ref := "C", rsid := none, stats := [] }]
    (updateRow
      [("4:10:A:G",
        { chr := "4", pos := 11, ref := "A", alt := "G", swap := false, flip := false,
          preswap := false, effect_flipped := false })] [] [] []
      { chrom := "4", pos := "10", ea := "G", ref := "A", rsid := none, stats := [] })
    (by decide)).1

/-- C9: a record whose identity is absent from both the successful and
the rejected engine stream ends with status `unknown`, is routed to the
unmatched output, and the run still completes with every record
accounted for in the two outputs. -/
theorem C9_unknown_surfaced (d : List (String × LiftedInfo)) (rej ec fc : List String)
    (rows : List SumRow) (r : SumRow) (hr : r ∈ rows)
    (h1 : lookupInfo (reconcilerKey r) d = none)
    (h2 : reconcilerKey r ∉ rej) :
    (updateRow d rej ec fc r).status = "unknown" ∧
    updateRow d rej ec fc r ∈ (update_sumstats d rej ec fc rows).2.1 ∧
    (update_sumstats d rej ec fc rows).1.length +
      (update_sumstats d rej ec fc rows).2.1.length = rows.length := by
  have hst : (updateRow d rej ec fc r).status = "unknown" := by
    simp [updateRow, h1, h2]
  refine ⟨hst, ?_, ?_⟩
  · simp only [update_sumstats]
    refine List.mem_filter.mpr ⟨List.mem_map_of_mem _ hr, ?_⟩
    simp [hst]
  · simp only [update_sumstats]
    have h := length_filter_split (fun o : OutRow => o.status == "lifted")
      (rows.map (updateRow d rej ec fc))
    simpa using h

/-- Witness for C9: with an empty engine dictionary and an empty reject
list, a concrete record ends `unknown` in the unmatched output and the
run's outputs still account for the single input row. -/
theorem C9_unknown_surfaced_witness :
    ({ chrom := "6", pos := "30", ea := "A", ref := "C", rsid := none, stats := [] } : SumRow) ∈
      [({ chrom := "6", pos := "30", ea := "A", ref := "C", rsid := none, stats := [] } : SumRow)] ∧
    (updateRow [] [] [] []
        { chrom := "6", pos := "30", ea := "A", ref := "C", rsid := none, stats := [] }).status =
      "unknown" ∧
    updateRow [] [] [] []
        { chrom := "6", pos := "30", ea := "A", ref := "C", rsid := none, stats := [] } ∈
      (update_sumstats [] [] [] []
        [{ chrom := "6", pos := "30", ea := "A", ref := "C", rsid := none, stats := [] }]).2.1 := by
  have h := C9_unknown_surfaced [] [] [] []
    [{ chrom := "6", pos := "30", ea := "A", ref := "C", rsid := none, stats := [] }]
    { chrom := "6", pos := "30", ea := "A", ref := "C", rsid := none, stats := [] }
    (by decide) (by decide) (by decide)
  exact ⟨by decide, h.1, h.2.1⟩

/-- A supplied effect-column name that is not a column of the record
leaves the statistic update unchanged. -/
theorem flipStats_absent_effect (ec fc : List String) (name : String)
    (stats : List (String × Rat)) (h : name ∉ stats.map Prod.fst) :
    flipStats (name :: ec) fc stats = flipStats ec fc stats := by
  rw [flipStats_eq_map, flipStats_eq_map]
  apply List.map_congr_left
  intro p hp
  have hne : p.1 ≠ name := by
    intro he
    exact h (he ▸ List.mem_map_of_mem Prod.fst hp)
  simp [List.count_cons, hne]

/-- A supplied frequency-column name that is not a column of the record
leaves the statistic update unchanged. -/
theorem flipStats_absent_eaf (ec fc : List String) (name : String)
    (stats : List (String × Rat)) (h : name ∉ stats.map Prod.fst) :
    flipStats ec (name :: fc) stats = flipStats ec fc stats := by
  rw [flipStats_eq_map, flipStats_eq_map]
  apply List.map_congr_left
  intro p hp
  have hne : p.1 ≠ name := by
    intro he
    exact h (he ▸ List.mem_map_of_mem Prod.fst hp)
  simp [List.count_cons, hne]

/-- C10: a caller-supplied effect-column or frequency-column name that is
not a column of the input record is silently skipped: the whole update is
identical to the update run without that name, so no error occurs and no
other column is altered. -/
theorem C10_absent_column_skipped (d : List (String × LiftedInfo))
    (rej ec fc : List String) (r : SumRow) (name : String)
    (h : name ∉ r.stats.map Prod.fst) :
    updateRow d rej (name :: ec) fc r = updateRow d rej ec fc r ∧
    updateRow d rej ec (name :: fc) r = updateRow d rej ec fc r := by
  constructor <;>
  · cases hl : lookupInfo (reconcilerKey r) d <;>
      simp [updateRow, hl, flipStats_absent_effect ec fc name r.stats h,
        flipStats_absent_eaf ec fc name r.stats h]

/-- Witness for C10: supplying the absent column name `Z` next to the
present column `BETA` produces exactly the run that never mentioned `Z`. -/
theorem C10_absent_column_skipped_witness :
    ("Z" ∉
      ({ chrom := "1", pos := "5", ea := "A", ref := "G", rsid := none,
         stats := [("BETA", (2 : Rat))] } : SumRow).stats.map Prod.fst) ∧
    updateRow [] [] ["Z", "BETA"] []
        { chrom := "1", pos := "5", ea := "A", ref := "G", rsid := none,
          stats := [("BETA", (2 : Rat))] } =
      updateRow [] [] ["BETA"] []
        { chrom := "1", pos := "5", ea := "A", ref := "G", rsid := none,
          stats := [("BETA", (2 : Rat))] } ∧
    updateRow [] [] ["BETA"] ["Z"]
        { chrom := "1", pos := "5", ea := "A", ref := "G", rsid := none,
          stats := [("BETA", (2 : Rat))] } =
      updateRow [] [] ["BETA"] []
        { chrom := "1", pos := "5", ea := "A", ref := "G", rsid := none,
          stats := [("BETA", (2 : Rat))] } := by
  have h := C10_absent_column_skipped [] [] ["BETA"] []
    { chrom := "1", pos := "5", ea := "A", ref := "G", rsid := none,
      stats := [("BETA", (2 : Rat))] } "Z"
    (by simp)
  exact ⟨by simp, h.1, h.2⟩

/-- Counterexample to C5: two identical input records share the identity
`9:12:G:T`; the run does not fail — both records are written to the
lifted output carrying the same single engine result, so duplicate
identities are silently assigned the same result rather than raising an
`IdentityCollisionError`. -/
theorem C5_no_collision_error_cx :
    ((update_sumstats
        [("9:12:G:T",
          { chr := "9", pos := 777, ref := "G", alt := "T", swap := false, flip := false,
            preswap := false, effect_flipped := false })] [] [] []
        [{ chrom := "9", pos := "12", ea := "T", ref := "G", rsid := none, stats := [] },
          { chrom := "9", pos := "12", ea := "T", ref := "G", rsid := none, stats := [] }]).1.map
        (fun o => (o.chrom, o.ea, o.ref, o.status))) =
      [("9", "T", "G", "lifted"), ("9", "T", "G", "lifted")] ∧
    (update_sumstats
        [("9:12:G:T",
          { chr := "9", pos := 777, ref := "G", alt := "T", swap := false, flip := false,
            preswap := false, effect_flipped := false })] [] [] []
        [{ chrom := "9", pos := "12", ea := "T", ref := "G", rsid := none, stats := [] },
          { chrom := "9", pos := "12", ea := "T", ref := "G", rsid := none, stats := [] }]).2.1 =
      [] := by
  exact ⟨by decide, by decide⟩

/-- C5 as amended: duplicate identities are not detected — the run
completes, and any two records that produce the same VariantIdentity,
when that identity is present in the lifted dictionary, are assigned the
same engine result (identical output chromosome, position, alleles and
status). -/
theorem C5_amended_same_engine_result (d : List (String × LiftedInfo))
    (rej ec fc : List String) (r1 r2 : SumRow) (info : LiftedInfo)
    (hk : reconcilerKey r1 = reconcilerKey r2)
    (h : lookupInfo (reconcilerKey r1) d = some info) :
    (updateRow d rej ec fc r1).chrom = (updateRow d rej ec fc r2).chrom ∧
    (updateRow d rej ec fc r1).pos = (updateRow d rej ec fc r2).pos ∧
    (updateRow d rej ec fc r1).ea = (updateRow d rej ec fc r2).ea ∧
    (updateRow d rej ec fc r1).ref = (updateRow d rej ec fc r2).ref ∧
    (updateRow d rej ec fc r1).status = (updateRow d rej ec fc r2).status := by
  have h2 : lookupInfo (reconcilerKey r2) d = some info := hk ▸ h
  refine ⟨?_, ?_, ?_, ?_, ?_⟩ <;> simp [updateRow, h, h2, hk]

/-- Witness for the amended C5: two records sharing the rsid `rs1` (one
on chromosome 8, one on 9) both take the engine result stored under
`rs1`. -/
theorem C5_amended_same_engine_result_witness :
    reconcilerKey
        ({ chrom := "9", pos := "12", ea := "T", ref := "G", rsid := some "rs1",
           stats := [] } : SumRow) =
      reconcilerKey
        ({ chrom := "8", pos := "34", ea := "A", ref := "C", rsid := some "rs1",
           stats := [] } : SumRow) ∧
    (updateRow
        [("rs1",
          { chr := "9", pos := 777, ref := "G", alt := "T", swap := false, flip := false,
            preswap := false, effect_flipped := false })] [] [] []
        { chrom := "9", pos := "12", ea := "T", ref := "G", rsid := some "rs1",
          stats := [] }).chrom =
      (updateRow
        [("rs1",
          { chr := "9", pos := 777, ref := "G", alt := "T", swap := false, flip := false,
            preswap := false, effect_flipped := false })] [] [] []
        { chrom := "8", pos := "34", ea := "A", ref := "C", rsid := some "rs1",
          stats := [] }).chrom ∧
    (updateRow
        [("rs1",
          { chr := "9", pos := 777, ref := "G", alt := "T", swap := false, flip := false,
            preswap := false, effect_flipped := false })] [] [] []
        { chrom := "9", pos := "12", ea := "T", ref := "G", rsid := some "rs1",
          stats := [] }).status =
      (updateRow
        [("rs1",
          { chr := "9", pos := 777, ref := "G", alt := "T", swap := false, flip := false,
            preswap := false, effect_flipped := false })] [] [] []
        { chrom := "8", pos := "34", ea := "A", ref := "C", rsid := some "rs1",
          stats := [] }).status := by
  have h := C5_amended_same_engine_result
    [("rs1",
      { chr := "9", pos := 777, ref := "G", alt := "T", swap := false, flip := false,
        preswap := false, effect_flipped := false })] [] [] []
    { chrom := "9", pos := "12", ea := "T", ref := "G", rsid := some "rs1", stats := [] }
    { chrom := "8", pos := "34", ea := "A", ref := "C", rsid := some "rs1", stats := [] }
    { chr := "9", pos := 777, ref := "G", alt := "T", swap := false, flip := false,
      preswap := false, effect_flipped := false }
    (by decide) (by decide)
  exact ⟨by decide, h.1, h.2.2.2.2⟩

/-- The STRAND_FLIP column of an output row is the engine's strand-flip
flag for a matched record and false otherwise. -/
theorem updateRow_strandFlip (d : List (String × LiftedInfo)) (rej ec fc : List String)
    (r : SumRow) :
    (updateRow d rej ec fc r).strandFlip =
      (match lookupInfo (reconcilerKey r) d with
       | some info => info.flip
       | none => false) := by
  cases hl : lookupInfo (reconcilerKey r) d <;> simp [updateRow, hl]

/-- Counterexample to C7: a single matched record whose normalizer
swapped its alleles (`pre_swap` true) but whose liftover reported no
allele swap: the printed `allele_swapped` counter is 1 even though no
record in the run has `allele_swap` true, because the code counts
`flip_mask` (the effect-flipped records), not the ALLELE_SWAP flag. -/
theorem C7_allele_swap_counter_cx :
    (liftSummary
        [("2:50:C:A",
          { chr := "2", pos := 60, ref := "C", alt := "A", swap := false, flip := false,
            preswap := true, effect_flipped := true })] [] [] []
        [{ chrom := "2", pos := "50", ea := "A", ref := "C", rsid := none,
           stats := [] }]).allele_swapped = 1 ∧
    ([{ chrom := "2", pos := "50", ea := "A", ref := "C", rsid := none,
        stats := [] }].map
        (updateRow
          [("2:50:C:A",
            { chr := "2", pos := 60, ref := "C", alt := "A", swap := false, flip := false,
              preswap := true, effect_flipped := true })] [] [] [])).countP
      (fun o => o.alleleSwap) = 0 := by
  exact ⟨by decide, by decide⟩

/-- C7 as amended: the five counters are computed from the input records
and the engine dictionary alone (before any output is written, hence
independent of write chunking); `total` is the input length, `lifted`
the number of records matched in the successful stream, `strand_flipped`
the number whose output STRAND_FLIP flag is true (equivalently, matched
records whose engine line reports a strand flip), `failed` is
`total - lifted`, and `allele_swapped` counts the records with
`effect_flipped` true (`pre_swap` XOR `allele_swap`), not those with
`allele_swap` true. -/
theorem C7_summary_counters_amended (d : List (String × LiftedInfo))
    (rej ec fc : List String) (rows : List SumRow) :
    (liftSummary d rej ec fc rows).total = rows.length ∧
    (liftSummary d rej ec fc rows).lifted =
      rows.countP (fun r => (lookupInfo (reconcilerKey r) d).isSome) ∧
    (liftSummary d rej ec fc rows).strand_flipped =
      rows.countP (fun r =>
        match lookupInfo (reconcilerKey r) d with
        | some info => info.flip
        | none => false) ∧
    (liftSummary d rej ec fc rows).allele_swapped =
      rows.countP (fun r =>
        match lookupInfo (reconcilerKey r) d with
        | some info => info.effect_flipped
        | none => false) ∧
    (liftSummary d rej ec fc rows).failed =
      rows.length - (liftSummary d rej ec fc rows).lifted := by
  refine ⟨rfl, rfl, ?_, rfl, rfl⟩
  simp only [liftSummary]
  rw [List.countP_map]
  apply List.countP_congr
  intro r _
  simp only [Function.comp]
  rw [updateRow_strandFlip]

end LiftoverSumstats
